import Mathlib

/-!
Verification of the `pws_exporter` interception subsystem: a shallow
embedding of the DNS responder (`internal/dns`), the Weather Underground
submission endpoint and measurement decoder (`internal/exporter/wu`), the
metrics sink adapter (`internal/exporter`), and the orchestrator's start
routine (`internal/exporter`), together with theorems settling the spec's
claims about them.

Numeric code (Go `float32`/`float64`) is embedded as exact rational
arithmetic `ℚ`; machine rounding is not modelled.  Calls into the Go
standard library (`strconv.ParseFloat`, `time.ParseInLocation`) and the
`miekg/dns` client exchange are modelled explicitly where noted.
-/

namespace PWS

/-! ## DNS responder (internal/dns, `Server.ServeDNS`) -/

/-- `dns.TypeA` in `miekg/dns`. -/
def typeA : Nat := 1

/-- `dns.ClassINET` in `miekg/dns`. -/
def classINET : Nat := 1

/-- `dns.RcodeSuccess`. -/
def rcodeSuccess : Nat := 0

/-- `dns.RcodeNameError` (NXDOMAIN). -/
def rcodeNameError : Nat := 3

/-- A DNS question: queried name and query type (`dns.Question`). -/
structure Question where
  name : String
  qtype : Nat
deriving DecidableEq, Repr

/-- A resource record, as far as the responder fills it in: the fields of
the `dns.A` answer built in `ServeDNS` (`Hdr.Name`, `Hdr.Rrtype`,
`Hdr.Class`, `Hdr.Ttl`) plus the address payload, kept as the address
string handed to `net.ParseIP`. -/
structure RR where
  name : String
  rrtype : Nat
  rclass : Nat
  ttl : Nat
  rdata : String
deriving DecidableEq, Repr

/-- The parts of a `dns.Msg` the responder reads or writes: question
section, answer section and response code. -/
structure Msg where
  question : List Question
  answer : List RR
  rcode : Nat
deriving DecidableEq, Repr

/-- Go map lookup `s.records[domain]` on the record table, represented as
an association list (first match wins; the table is built with distinct
keys). -/
def lookupRecord (records : List (String × String)) (d : String) : Option String :=
  match records with
  | [] => Option.none
  | (k, v) :: rest => if k = d then some v else lookupRecord rest d

/-- `Server.ServeDNS` as a pure function.  `records` is the record table,
`forwardDomains` the forward-domain set, and `exchange` the outcome of
`dnsClient.Exchange` with the upstream resolver (`some res` on a
successful exchange, `none` on a transport error).  The result is the
message written with `w.WriteMsg`, or `none` when no reply is written.
Mirrors src/unnamed/part_000 lines 76-127: requests whose question count
is not one are dropped; an A query hitting the record table is answered
with a single A record of TTL 3600; names in the forward set are relayed
and the upstream response written unmodified (dropped on exchange error);
everything else gets NXDOMAIN via `SetRcode` (which copies the question
and sets the rcode). -/
def serveDNS (records : List (String × String)) (forwardDomains : List String)
    (exchange : Option Msg) (r : Msg) : Option Msg :=
  match r.question with
  | [q] =>
    let domain := q.name
    let afterLocal : Option Msg :=
      if forwardDomains.contains domain then
        match exchange with
        | some res => some res
        | Option.none => Option.none
      else
        some { question := [q], answer := [], rcode := rcodeNameError }
    if q.qtype = typeA then
      match lookupRecord records domain with
      | some ip =>
        some { question := [q],
               answer := [{ name := domain, rrtype := typeA, rclass := classINET,
                            ttl := 3600, rdata := ip }],
               rcode := rcodeSuccess }
      | Option.none => afterLocal
    else afterLocal
  | _ => Option.none

/-! ## URL query values (`net/url.Values`) -/

/-- `url.Values` as the flattened list of key/value pairs of the query
string, in order.  `vGet` is `Values.Get`: the first value for the key,
or the empty string when the key is absent. -/
def vGet (q : List (String × String)) (k : String) : String :=
  match q with
  | [] => ""
  | (k2, v) :: rest => if k2 = k then v else vGet rest k

/-- `Values.Has`: whether the key is present at all. -/
def vHas (q : List (String × String)) (k : String) : Bool :=
  match q with
  | [] => false
  | (k2, _) :: rest => k2 = k || vHas rest k

/-! ## Unit conversions (internal/exporter/wu, lines 179-198) -/

/-- `ftoc`: Fahrenheit to Celsius, `(f - 32) / 1.8`. -/
def ftoc (f : ℚ) : ℚ := (f - 32) / 1.8

/-- `inToMM`: inches to millimeters, `f * 25.4`. -/
def inToMM (f : ℚ) : ℚ := f * 25.4

/-- `mphToKPH`: miles/hour to kilometers/hour, `f * 1.609344`. -/
def mphToKPH (f : ℚ) : ℚ := f * 1.609344

/-- `inHgToHPA`: inches of mercury to hectopascals, `inHg * 33.8639`. -/
def inHgToHPA (inHg : ℚ) : ℚ := inHg * 33.8639

/-! ## Float parsing (`stof`, modelling `strconv.ParseFloat`) -/

/-- Value of a decimal digit character, `none` if not a digit. -/
def digitVal (c : Char) : Option Nat :=
  if c.isDigit then some (c.toNat - 48) else Option.none

/-- Longest digit prefix of the character list, as the list of digit
values, plus the remainder. -/
def takeDigits : List Char → List Nat × List Char
  | [] => ([], [])
  | c :: rest =>
    match digitVal c with
    | some d =>
      let (ds, r) := takeDigits rest
      (d :: ds, r)
    | Option.none => ([], c :: rest)

/-- Digits to the natural number they denote (most significant first). -/
def digitsToNat (ds : List Nat) : Nat :=
  ds.foldl (fun acc d => acc * 10 + d) 0

/-- Model of `strconv.ParseFloat` for ordinary decimal numerals, with
exact rational value in place of the IEEE result: optional sign, digits
with at most one decimal point (at least one digit overall), optional
decimal exponent; anything else — including the empty string — fails.
Special forms (`Inf`, `NaN`, hex floats, underscores) are not modelled. -/
def goParseFloat (s : String) : Option ℚ :=
  let l := s.toList
  let (sign, l) : ℚ × List Char :=
    match l with
    | '-' :: rest => (-1, rest)
    | '+' :: rest => (1, rest)
    | _ => (1, l)
  let (intDs, l) := takeDigits l
  let (fracDs, l) : List Nat × List Char :=
    match l with
    | '.' :: rest => takeDigits rest
    | _ => ([], l)
  if intDs.isEmpty && fracDs.isEmpty then Option.none
  else
    let mant : ℚ := sign * ((digitsToNat intDs : ℚ) +
      (digitsToNat fracDs : ℚ) / ((10 : ℚ) ^ fracDs.length))
    match l with
    | [] => some mant
    | e :: rest =>
      if e = 'e' ∨ e = 'E' then
        let (esign, rest) : Bool × List Char :=
          match rest with
          | '-' :: r => (true, r)
          | '+' :: r => (false, r)
          | _ => (false, rest)
        let (expDs, rest) := takeDigits rest
        if expDs.isEmpty ∨ ¬ rest.isEmpty then Option.none
        else
          let p : ℚ := (10 : ℚ) ^ digitsToNat expDs
          some (if esign then mant / p else mant * p)
      else Option.none

/-- `stof` (internal/exporter/wu lines 171-177): parse a float from a
string; unparsable strings yield `(0, false)`, modelled as `none`. -/
def stof (v : String) : Option ℚ := goParseFloat v

/-! ## Timestamp parsing (modelling `time.ParseInLocation` with layout
`"2006-01-02 15:04:05"` in UTC) -/

/-- A UTC wall-clock instant, the fields the layout populates. -/
structure GoTime where
  year : Nat
  month : Nat
  day : Nat
  hour : Nat
  minute : Nat
  second : Nat
deriving DecidableEq, Repr

/-- Go's leap-year rule (`time.isLeap`). -/
def isLeap (y : Nat) : Bool :=
  y % 4 = 0 && (y % 100 ≠ 0 || y % 400 = 0)

/-- `time.daysIn`: days in the given month (1-12) of the given year. -/
def daysIn (m y : Nat) : Nat :=
  if m = 2 then (if isLeap y then 29 else 28)
  else if m = 4 ∨ m = 6 ∨ m = 9 ∨ m = 11 then 30
  else 31

/-- Exactly two digits (`getnum` with `fixed` set, as for the `01`, `02`,
`04`, `05` layout elements). -/
def getnum2 : List Char → Option (Nat × List Char)
  | c1 :: c2 :: rest =>
    match digitVal c1, digitVal c2 with
    | some d1, some d2 => some (d1 * 10 + d2, rest)
    | _, _ => Option.none
  | _ => Option.none

/-- One or two digits (`getnum` without `fixed`, as for the `15` hour
element). -/
def getnumFlex : List Char → Option (Nat × List Char)
  | [] => Option.none
  | c1 :: rest =>
    match digitVal c1 with
    | Option.none => Option.none
    | some d1 =>
      match rest with
      | c2 :: rest2 =>
        match digitVal c2 with
        | some d2 => some (d1 * 10 + d2, rest2)
        | Option.none => some (d1, rest)
      | [] => some (d1, [])

/-- A literal separator character of the layout. -/
def expectChar (c : Char) : List Char → Option (List Char)
  | c2 :: rest => if c2 = c then some rest else Option.none
  | [] => Option.none

/-- Four digits (the `2006` long-year layout element). -/
def getYear : List Char → Option (Nat × List Char)
  | c1 :: c2 :: c3 :: c4 :: rest =>
    match digitVal c1, digitVal c2, digitVal c3, digitVal c4 with
    | some d1, some d2, some d3, some d4 =>
      some (((d1 * 10 + d2) * 10 + d3) * 10 + d4, rest)
    | _, _, _, _ => Option.none
  | _ => Option.none

/-- Model of `time.ParseInLocation("2006-01-02 15:04:05", s, time.UTC)`:
four-digit year, `-`, two-digit month, `-`, two-digit day, space, one- or
two-digit hour, `:`, two-digit minute, `:`, two-digit second, end of
input; then Go's range checks (month 1-12, day within the month, hour
below 24, minute and second below 60). -/
def parseDateTime (s : String) : Option GoTime := do
  let l := s.toList
  let (year, l) ← getYear l
  let l ← expectChar '-' l
  let (month, l) ← getnum2 l
  let l ← expectChar '-' l
  let (day, l) ← getnum2 l
  let l ← expectChar ' ' l
  let (hour, l) ← getnumFlex l
  let l ← expectChar ':' l
  let (minute, l) ← getnum2 l
  let l ← expectChar ':' l
  let (second, l) ← getnum2 l
  if ¬ l.isEmpty then Option.none
  else if month < 1 ∨ 12 < month then Option.none
  else if day < 1 ∨ daysIn month year < day then Option.none
  else if 24 ≤ hour then Option.none
  else if 60 ≤ minute then Option.none
  else if 60 ≤ second then Option.none
  else some ⟨year, month, day, hour, minute, second⟩

/-! ## Measurement decoder (internal/exporter/wu, `DeviceMeasurement`) -/

/-- `DeviceMeasurement` (internal/exporter/wu lines 88-106), numeric
fields as exact rationals. -/
structure DeviceMeasurement where
  dateUTC : GoTime
  realTime : Bool
  realTimeFreq : ℚ
  windDirection : ℚ
  windSpeed : ℚ
  windGust : ℚ
  humidity : ℚ
  dewPoint : ℚ
  temperature : ℚ
  rainPastHour : ℚ
  rainToday : ℚ
  barometric : ℚ
  indoorTemp : ℚ
  indoorHumidity : ℚ
deriving DecidableEq, Repr

/-- Helper for the repeated `if v, ok := stof(q.Get(key)); ok { field =
conv(v) }` pattern: the converted value when the field parses, and the
zero value of the untouched field otherwise. -/
def stofField (q : List (String × String)) (key : String) (conv : ℚ → ℚ) : ℚ :=
  match stof (vGet q key) with
  | some v => conv v
  | Option.none => 0

/-- The submission-date step of `DeviceMeasurement.fromQuery`
(internal/exporter/wu lines 112-121): `now` stands for
`time.Now().UTC()` at decode time; an empty or `"now"` value of
`dateutc` uses it, any other value must pass `time.ParseInLocation`,
else decoding fails with the `parse dateutc` error. -/
def parseDateField (q : List (String × String)) (now : GoTime) :
    Except String GoTime :=
  match vGet q "dateutc" with
  | "" => Except.ok now
  | "now" => Except.ok now
  | s =>
    match parseDateTime s with
    | some t => Except.ok t
    | Option.none => Except.error "parse dateutc"

/-- `DeviceMeasurement.fromQuery` (internal/exporter/wu lines 109-167):
the date step above, then every measurement field parsed leniently with
`stof` and converted, left at its zero value when absent or
unparsable. -/
def fromQuery (q : List (String × String)) (now : GoTime) :
    Except String DeviceMeasurement :=
  match parseDateField q now with
  | Except.error e => Except.error e
  | Except.ok t =>
    Except.ok
      { dateUTC := t
        realTime := vHas q "realtime" && (vGet q "realtime" == "1")
        realTimeFreq := stofField q "rtfreq" id
        windDirection := stofField q "winddir" id
        windSpeed := stofField q "windspeedmph" mphToKPH
        windGust := stofField q "windgustmph" mphToKPH
        humidity := stofField q "humidity" id
        dewPoint := stofField q "dewptf" ftoc
        temperature := stofField q "tempf" ftoc
        rainPastHour := stofField q "rainin" inToMM
        rainToday := stofField q "dailyrainin" inToMM
        barometric := stofField q "baromin" inHgToHPA
        indoorTemp := stofField q "indoortempf" ftoc
        indoorHumidity := stofField q "indoorhumidity" id }

/-! ## Submission endpoint (internal/exporter/wu, `SubmissionAPI.ServeHTTP`) -/

/-- The HTTP response the handler writes: status code and body. -/
structure HTTPResponse where
  status : Nat
  body : String
deriving DecidableEq, Repr

/-- `SubmissionAPI.ServeHTTP` (internal/exporter/wu lines 54-85) as a
pure function from the request's query values (and the decode-time clock)
to the response written and the callback invocation dispatched (`none`
when `handleSubmission` is not invoked, `some (stationID, dm)` when it
is).  Validation: the `action` value must equal `"updateraww"` and `ID`
and `PASSWORD` must be present, else `http.Error` writes status 400 with
the standard status text; a decode failure also yields 400; otherwise
status 200 with body `"success\n"` and the callback gets `q.Get("ID")`
and the decoded record. -/
def serveHTTP (q : List (String × String)) (now : GoTime) :
    HTTPResponse × Option (String × DeviceMeasurement) :=
  if ¬ (vGet q "action" = "updateraww") ∨ ¬ vHas q "ID" ∨ ¬ vHas q "PASSWORD" then
    (⟨400, "Bad Request\n"⟩, Option.none)
  else
    match fromQuery q now with
    | Except.error _ => (⟨400, "Bad Request\n"⟩, Option.none)
    | Except.ok dm => (⟨200, "success\n"⟩, some (vGet q "ID", dm))

/-! ## Metrics sink adapter (internal/exporter, `Exporter.handleWUSubmission`) -/

/-- A labelled metric series: station ID to current value, `none` when no
child with that label exists in the vector.  `GaugeVec.With(l).Set`
creates the child if needed and overwrites; `CounterVec.Delete(l)`
removes the child; `With(l).Add(v)` creates the child at 0 if needed and
adds. -/
def MetricSeries : Type := String → Option ℚ

/-- `With(l).Set(v)`. -/
def gaugeSet (s : MetricSeries) (id : String) (v : ℚ) : MetricSeries :=
  fun x => if x = id then some v else s x

/-- `Delete(l)`. -/
def seriesDelete (s : MetricSeries) (id : String) : MetricSeries :=
  fun x => if x = id then Option.none else s x

/-- `With(l).Add(v)` on a counter. -/
def counterAdd (s : MetricSeries) (id : String) (v : ℚ) : MetricSeries :=
  fun x => if x = id then some ((s x).getD 0 + v) else s x

/-- The per-station metric state of `Metrics` (internal/exporter,
metrics file): one series per gauge/counter the sink writes. -/
structure MetricsState where
  barometricPressure : MetricSeries
  dewPoint : MetricSeries
  humidity : MetricSeries
  indoorHumidity : MetricSeries
  indoorTemperature : MetricSeries
  rainPastHour : MetricSeries
  rain : MetricSeries
  temperature : MetricSeries
  windDirection : MetricSeries
  windGustSpeed : MetricSeries
  windSpeed : MetricSeries

/-- `Exporter.handleWUSubmission` (internal/exporter/wu.go lines 29-45):
set every gauge for the station's label, dividing the two humidities by
100; delete then add on the cumulative rain counter (counter state is
stored on the station, not in the exporter). -/
def handleWUSubmission (m : MetricsState) (deviceID : String)
    (dm : DeviceMeasurement) : MetricsState :=
  { barometricPressure := gaugeSet m.barometricPressure deviceID dm.barometric
    dewPoint := gaugeSet m.dewPoint deviceID dm.dewPoint
    humidity := gaugeSet m.humidity deviceID (dm.humidity / 100)
    indoorHumidity := gaugeSet m.indoorHumidity deviceID (dm.indoorHumidity / 100)
    indoorTemperature := gaugeSet m.indoorTemperature deviceID dm.indoorTemp
    rainPastHour := gaugeSet m.rainPastHour deviceID dm.rainPastHour
    rain := counterAdd (seriesDelete m.rain deviceID) deviceID dm.rainToday
    temperature := gaugeSet m.temperature deviceID dm.temperature
    windDirection := gaugeSet m.windDirection deviceID dm.windDirection
    windGustSpeed := gaugeSet m.windGustSpeed deviceID dm.windGust
    windSpeed := gaugeSet m.windSpeed deviceID dm.windSpeed }

/-! ## Orchestrator (internal/exporter, `Exporter.ListenAndServe`) -/

/-- The exporter's configuration fields read by `ListenAndServe`
(internal/exporter, `Exporter` struct). -/
structure ExporterConfig where
  exporterIP : String
  upstreamResolver : String
  dnsListenAddress : String
  wuListenAddress : String
  wuTLSListenAddress : String
deriving DecidableEq, Repr

/-- `NewExporter`'s address defaulting (internal/exporter lines 105-110):
an empty WU listen address becomes `":80"` and an empty WU TLS listen
address becomes `":443"`.  (The exporter-IP autodetection probe is I/O
and not modelled; it does not affect the listener decisions.) -/
def newExporter (c : ExporterConfig) : ExporterConfig :=
  { c with
    wuListenAddress := if c.wuListenAddress = "" then ":80" else c.wuListenAddress
    wuTLSListenAddress :=
      if c.wuTLSListenAddress = "" then ":443" else c.wuTLSListenAddress }

/-- Which one-time startup actions `ListenAndServe` performs and which
listeners it launches, with the addresses they bind. -/
structure StartPlan where
  certGenerated : Bool
  dnsStarted : Bool
  plainStarted : Bool
  plainAddr : String
  tlsStarted : Bool
  tlsAddr : String
deriving DecidableEq, Repr

/-- The listener decisions of `Exporter.ListenAndServe` (internal/exporter
lines 135-209): the TLS certificate is generated when the WU TLS listen
address is non-empty; the DNS listener starts when the DNS listen address
is non-empty; the plaintext WU listener always starts, on the WU listen
address; the TLS WU listener block is guarded by
`if e.wuListenAddress != ""` (line 199 of the source) and binds
`e.wuTLSListenAddress`. -/
def listenAndServePlan (e : ExporterConfig) : StartPlan :=
  { certGenerated := e.wuTLSListenAddress ≠ ""
    dnsStarted := e.dnsListenAddress ≠ ""
    plainStarted := true
    plainAddr := e.wuListenAddress
    tlsStarted := e.wuListenAddress ≠ ""
    tlsAddr := e.wuTLSListenAddress }

/-- Outcome of one call to `ListenAndServe` against a given prior state of
the `running` flag: the returned value (error or the listener plan), the
flag's value while the routine runs, and its value after the routine
exits. -/
structure StartOutcome where
  result : Except String StartPlan
  runningDuring : Bool
  runningAfter : Bool

/-- The `running` compare-and-set guard of `Exporter.ListenAndServe`
(internal/exporter lines 130-133): when the flag is already set the call
returns the `"already running"` error and changes nothing; otherwise the
flag is set for the duration of the call, the listeners are started, and
the deferred compare-and-set clears the flag when the routine exits. -/
def listenAndServe (e : ExporterConfig) (running : Bool) : StartOutcome :=
  if running then
    { result := Except.error "already running"
      runningDuring := running
      runningAfter := running }
  else
    { result := Except.ok (listenAndServePlan e)
      runningDuring := true
      runningAfter := false }

/-! ## Theorems -/

/-- C1: for every DNS request with exactly one question, an A-type
question whose name hits the Record Table is answered with exactly one
answer record carrying the table's address for that name and TTL 3600,
and a question whose name is in neither the Record Table nor the Forward
Domain Set is answered NXDOMAIN with no answer records. -/
theorem serveDNS_table_hit_and_miss (records : List (String × String))
    (forwardDomains : List String) (exchange : Option Msg) (r : Msg)
    (q : Question) (hq : r.question = [q]) :
    (∀ ip, q.qtype = typeA → lookupRecord records q.name = some ip →
      serveDNS records forwardDomains exchange r =
        some { question := [q],
               answer := [{ name := q.name, rrtype := typeA, rclass := classINET,
                            ttl := 3600, rdata := ip }],
               rcode := rcodeSuccess }) ∧
    (lookupRecord records q.name = Option.none →
      forwardDomains.contains q.name = false →
      serveDNS records forwardDomains exchange r =
        some { question := [q], answer := [], rcode := rcodeNameError }) := by
  constructor
  · intro ip hA hlook
    simp [serveDNS, hq, hA, hlook]
  · intro hlook hfwd
    have hmem : q.name ∉ forwardDomains := by simpa using hfwd
    by_cases hA : q.qtype = typeA <;>
      simp [serveDNS, hq, hA, hlook, hmem]

/-- Witness for C1: a concrete table hit and a concrete double miss. -/
theorem serveDNS_table_hit_and_miss_witness :
    serveDNS [("weatherstation.wunderground.com.", "192.168.1.2")] ["time.nist.gov."]
        Option.none ⟨[⟨"weatherstation.wunderground.com.", typeA⟩], [], 0⟩ =
      some { question := [⟨"weatherstation.wunderground.com.", typeA⟩],
             answer := [{ name := "weatherstation.wunderground.com.", rrtype := typeA,
                          rclass := classINET, ttl := 3600, rdata := "192.168.1.2" }],
             rcode := rcodeSuccess } ∧
    serveDNS [("weatherstation.wunderground.com.", "192.168.1.2")] ["time.nist.gov."]
        Option.none ⟨[⟨"example.com.", typeA⟩], [], 0⟩ =
      some { question := [⟨"example.com.", typeA⟩], answer := [],
             rcode := rcodeNameError } :=
  ⟨(serveDNS_table_hit_and_miss _ _ _ _ _ rfl).1 "192.168.1.2" rfl (by decide),
   (serveDNS_table_hit_and_miss _ _ _ _ _ rfl).2 (by decide) (by decide)⟩

/-- C8: a DNS request whose question count is zero or greater than one
gets no reply of any kind. -/
theorem serveDNS_multi_question_dropped (records : List (String × String))
    (forwardDomains : List String) (exchange : Option Msg) (r : Msg)
    (h : r.question.length ≠ 1) :
    serveDNS records forwardDomains exchange r = Option.none := by
  rcases hr : r.question with _ | ⟨a, _ | ⟨b, t⟩⟩
  · simp [serveDNS, hr]
  · exact absurd (by rw [hr]; rfl) h
  · simp [serveDNS, hr]

/-- Witness for C8: zero questions and two questions. -/
theorem serveDNS_multi_question_dropped_witness :
    serveDNS [("a.", "1.2.3.4")] ["f."] Option.none ⟨[], [], 0⟩ = Option.none ∧
    serveDNS [("a.", "1.2.3.4")] ["f."] Option.none
      ⟨[⟨"a.", typeA⟩, ⟨"f.", typeA⟩], [], 0⟩ = Option.none :=
  ⟨serveDNS_multi_question_dropped _ _ _ _ (by decide),
   serveDNS_multi_question_dropped _ _ _ _ (by decide)⟩

/-- C7: a single-question query that does not get a local A answer
(non-A type, or a record-table miss) and whose name is in the Forward
Domain Set is relayed: on a successful exchange the upstream response is
written unmodified, and on an exchange error no reply is written at
all. -/
theorem serveDNS_forward (records : List (String × String))
    (forwardDomains : List String) (r : Msg) (q : Question)
    (hq : r.question = [q])
    (hmiss : q.qtype ≠ typeA ∨ lookupRecord records q.name = Option.none)
    (hfwd : forwardDomains.contains q.name = true) :
    (∀ res, serveDNS records forwardDomains (some res) r = some res) ∧
    serveDNS records forwardDomains Option.none r = Option.none := by
  have hmem : q.name ∈ forwardDomains := by simpa using hfwd
  rcases hmiss with hA | hlook
  · exact ⟨fun res => by simp [serveDNS, hq, hA, hmem],
      by simp [serveDNS, hq, hA, hmem]⟩
  · constructor
    · intro res
      by_cases hA : q.qtype = typeA <;> simp [serveDNS, hq, hA, hlook, hmem]
    · by_cases hA : q.qtype = typeA <;> simp [serveDNS, hq, hA, hlook, hmem]

/-- Witness for C7: a forwarded name answered from upstream, and the same
query dropped when the exchange fails. -/
theorem serveDNS_forward_witness :
    serveDNS [("a.", "1.2.3.4")] ["time.nist.gov."]
        (some ⟨[⟨"time.nist.gov.", typeA⟩],
               [⟨"time.nist.gov.", typeA, classINET, 60, "129.6.15.28"⟩], 0⟩)
        ⟨[⟨"time.nist.gov.", typeA⟩], [], 0⟩ =
      some ⟨[⟨"time.nist.gov.", typeA⟩],
            [⟨"time.nist.gov.", typeA, classINET, 60, "129.6.15.28"⟩], 0⟩ ∧
    serveDNS [("a.", "1.2.3.4")] ["time.nist.gov."] Option.none
      ⟨[⟨"time.nist.gov.", typeA⟩], [], 0⟩ = Option.none :=
  ⟨(serveDNS_forward _ _ _ _ rfl (Or.inr (by decide)) (by decide)).1 _,
   (serveDNS_forward _ _ _ _ rfl (Or.inr (by decide)) (by decide)).2⟩

/-- Counterexample to C6 as stated: a name that is both in the Record
Table and in the Forward Domain Set, queried with a non-A type (TXT, 16),
is forwarded and answered with the upstream response (rcode success), not
with NXDOMAIN. -/
theorem serveDNS_nonA_table_name_counterexample :
    serveDNS [("weatherstation.wunderground.com.", "192.168.1.2")]
        ["weatherstation.wunderground.com."]
        (some ⟨[⟨"weatherstation.wunderground.com.", 16⟩], [], rcodeSuccess⟩)
        ⟨[⟨"weatherstation.wunderground.com.", 16⟩], [], 0⟩ =
      some ⟨[⟨"weatherstation.wunderground.com.", 16⟩], [], rcodeSuccess⟩ ∧
    rcodeSuccess ≠ rcodeNameError := by
  constructor
  · rfl
  · decide

/-- C6 (amended): a single-question query of non-A type for a
Record-Table name is answered NXDOMAIN provided the name is not also in
the Forward Domain Set; when the name is in the Forward Domain Set the
query is forwarded instead (the upstream response, or no reply on
exchange error), so Record-Table precedence holds only for A-type
queries. -/
theorem serveDNS_nonA_table_name (records : List (String × String))
    (forwardDomains : List String) (exchange : Option Msg) (r : Msg)
    (q : Question) (ip : String) (hq : r.question = [q])
    (hA : q.qtype ≠ typeA) (hlook : lookupRecord records q.name = some ip) :
    (forwardDomains.contains q.name = false →
      serveDNS records forwardDomains exchange r =
        some { question := [q], answer := [], rcode := rcodeNameError }) ∧
    (forwardDomains.contains q.name = true →
      serveDNS records forwardDomains exchange r =
        match exchange with
        | some res => some res
        | Option.none => Option.none) := by
  constructor
  · intro hfwd
    have hmem : q.name ∉ forwardDomains := by simpa using hfwd
    simp [serveDNS, hq, hA, hmem]
  · intro hfwd
    have hmem : q.name ∈ forwardDomains := by simpa using hfwd
    cases exchange <;> simp [serveDNS, hq, hA, hmem]

/-- Witness for the amended C6: a TXT query for a table name outside the
forward set gets NXDOMAIN; the same query for a table name inside the
forward set is forwarded. -/
theorem serveDNS_nonA_table_name_witness :
    serveDNS [("a.", "1.2.3.4")] [] Option.none ⟨[⟨"a.", 16⟩], [], 0⟩ =
      some { question := [⟨"a.", 16⟩], answer := [], rcode := rcodeNameError } ∧
    serveDNS [("a.", "1.2.3.4")] ["a."]
        (some ⟨[⟨"a.", 16⟩], [], 0⟩) ⟨[⟨"a.", 16⟩], [], 0⟩ =
      some ⟨[⟨"a.", 16⟩], [], 0⟩ :=
  ⟨(serveDNS_nonA_table_name _ _ _ _ _ "1.2.3.4" rfl (by decide) (by decide)).1
      (by decide),
   (serveDNS_nonA_table_name _ _ _ _ _ "1.2.3.4" rfl (by decide) (by decide)).2
      (by decide)⟩

/-- C2: the submission endpoint responds 400 without invoking the
callback when the action value is not the protocol literal (including
when it is absent) or ID or PASSWORD is missing; on successful validation
it responds 200 with exact body `"success\n"` and dispatches the callback
with the station ID and the decoded record when decoding succeeds, and
responds 400 without the callback when decoding fails. -/
theorem serveHTTP_validation (q : List (String × String)) (now : GoTime) :
    ((vGet q "action" ≠ "updateraww" ∨ vHas q "ID" = false ∨
        vHas q "PASSWORD" = false) →
      serveHTTP q now = (⟨400, "Bad Request\n"⟩, Option.none)) ∧
    (vGet q "action" = "updateraww" → vHas q "ID" = true →
      vHas q "PASSWORD" = true →
      (∀ dm, fromQuery q now = Except.ok dm →
        serveHTTP q now = (⟨200, "success\n"⟩, some (vGet q "ID", dm))) ∧
      (∀ e, fromQuery q now = Except.error e →
        serveHTTP q now = (⟨400, "Bad Request\n"⟩, Option.none))) := by
  constructor
  · intro h
    have hcond : ¬ (vGet q "action" = "updateraww") ∨ ¬ vHas q "ID" ∨
        ¬ vHas q "PASSWORD" := by
      rcases h with h | h | h
      · exact Or.inl h
      · exact Or.inr (Or.inl (by simp [h]))
      · exact Or.inr (Or.inr (by simp [h]))
    simp only [serveHTTP, if_pos hcond]
  · intro ha hi hp
    have hcond : ¬ (¬ (vGet q "action" = "updateraww") ∨ ¬ vHas q "ID" ∨
        ¬ vHas q "PASSWORD") := by
      simp [ha, hi, hp]
    constructor
    · intro dm hdm
      simp only [serveHTTP, if_neg hcond, hdm]
    · intro e he
      simp only [serveHTTP, if_neg hcond, he]

/-- The valid submission query of the repository's test suite, shortened
to the parameters the witness checks. -/
def testSubmissionQuery : List (String × String) :=
  [("action", "updateraww"), ("ID", "test"), ("PASSWORD", "testtest"),
   ("tempf", "63.5")]

/-- The record `testSubmissionQuery` decodes to at the given clock. -/
def testSubmissionRecord : DeviceMeasurement :=
  { dateUTC := ⟨2025, 1, 23, 23, 9, 18⟩, realTime := false,
    realTimeFreq := 0, windDirection := 0, windSpeed := 0, windGust := 0,
    humidity := 0, dewPoint := 0, temperature := 17.5, rainPastHour := 0,
    rainToday := 0, barometric := 0, indoorTemp := 0, indoorHumidity := 0 }

set_option maxRecDepth 8192 in
/-- Witness for C2: the test submission of the repository's test suite
(action/ID/PASSWORD present, `tempf=63.5`) yields 200, `"success\n"` and
a callback carrying station `"test"` and the decoded record with
temperature `17.5` °C; a request missing `action` yields 400 and no
callback. -/
theorem serveHTTP_validation_witness :
    serveHTTP testSubmissionQuery ⟨2025, 1, 23, 23, 9, 18⟩ =
      (⟨200, "success\n"⟩, some ("test", testSubmissionRecord)) ∧
    serveHTTP [("ID", "test"), ("PASSWORD", "testtest")] ⟨2025, 1, 23, 23, 9, 18⟩ =
      (⟨400, "Bad Request\n"⟩, Option.none) :=
  ⟨((serveHTTP_validation testSubmissionQuery ⟨2025, 1, 23, 23, 9, 18⟩).2
        rfl rfl rfl).1 testSubmissionRecord (by with_unfolding_all rfl),
   (serveHTTP_validation [("ID", "test"), ("PASSWORD", "testtest")]
        ⟨2025, 1, 23, 23, 9, 18⟩).1 (Or.inl (by decide))⟩

/-- Counterexample to C3 as stated: with query `dateutc=` the parameter
is present, its value is not the literal `"now"` and does not parse as
`YYYY-MM-DD HH:MM:SS`, yet decoding succeeds (the code routes the empty
retrieved value to the "use current time" branch). -/
theorem fromQuery_empty_dateutc_counterexample :
    vHas [("dateutc", "")] "dateutc" = true ∧
    vGet [("dateutc", "")] "dateutc" ≠ "now" ∧
    parseDateTime (vGet [("dateutc", "")] "dateutc") = Option.none ∧
    (fromQuery [("dateutc", "")] ⟨2025, 1, 1, 0, 0, 0⟩).isOk = true := by
  refine ⟨rfl, by decide, rfl, rfl⟩

/-- C3 (amended): decoding fails if and only if the retrieved `dateutc`
value is neither the empty string (absent or empty-valued parameter) nor
the literal `"now"` and does not parse as `YYYY-MM-DD HH:MM:SS` UTC; an
unparsable value in any numeric parameter never causes failure and
leaves the corresponding output field at its zero value. -/
theorem fromQuery_failure_iff (q : List (String × String)) (now : GoTime) :
    ((fromQuery q now).isOk = false ↔
      (vGet q "dateutc" ≠ "" ∧ vGet q "dateutc" ≠ "now" ∧
        parseDateTime (vGet q "dateutc") = Option.none)) ∧
    (∀ dm, fromQuery q now = Except.ok dm →
      (stof (vGet q "rtfreq") = Option.none → dm.realTimeFreq = 0) ∧
      (stof (vGet q "winddir") = Option.none → dm.windDirection = 0) ∧
      (stof (vGet q "windspeedmph") = Option.none → dm.windSpeed = 0) ∧
      (stof (vGet q "windgustmph") = Option.none → dm.windGust = 0) ∧
      (stof (vGet q "humidity") = Option.none → dm.humidity = 0) ∧
      (stof (vGet q "dewptf") = Option.none → dm.dewPoint = 0) ∧
      (stof (vGet q "tempf") = Option.none → dm.temperature = 0) ∧
      (stof (vGet q "rainin") = Option.none → dm.rainPastHour = 0) ∧
      (stof (vGet q "dailyrainin") = Option.none → dm.rainToday = 0) ∧
      (stof (vGet q "baromin") = Option.none → dm.barometric = 0) ∧
      (stof (vGet q "indoortempf") = Option.none → dm.indoorTemp = 0) ∧
      (stof (vGet q "indoorhumidity") = Option.none → dm.indoorHumidity = 0)) := by
  constructor
  · by_cases h0 : vGet q "dateutc" = ""
    · simp [fromQuery, parseDateField, h0, Except.isOk, Except.toBool]
    · by_cases h1 : vGet q "dateutc" = "now"
      · simp [fromQuery, parseDateField, h1, Except.isOk, Except.toBool]
      · cases hp : parseDateTime (vGet q "dateutc") <;>
          simp [fromQuery, parseDateField, h0, h1, hp, Except.isOk, Except.toBool]
  · intro dm hdm
    cases hd : parseDateField q now with
    | error e => simp [fromQuery, hd] at hdm
    | ok t =>
      simp only [fromQuery, hd, Except.ok.injEq] at hdm
      subst hdm
      refine ⟨?_, ?_, ?_, ?_, ?_, ?_, ?_, ?_, ?_, ?_, ?_, ?_⟩ <;>
        · intro hs
          simp [stofField, hs]

/-- The record the query `dateutc=now&windspeedmph=abc` decodes to: the
unparsable wind speed is left at zero. -/
def unparsableWindRecord : DeviceMeasurement :=
  { dateUTC := ⟨2025, 1, 1, 0, 0, 0⟩, realTime := false, realTimeFreq := 0,
    windDirection := 0, windSpeed := 0, windGust := 0, humidity := 0,
    dewPoint := 0, temperature := 0, rainPastHour := 0, rainToday := 0,
    barometric := 0, indoorTemp := 0, indoorHumidity := 0 }

set_option maxRecDepth 8192 in
/-- Witness for C3 (amended): a query with unparsable wind speed and
`dateutc=now` decodes successfully and its wind-speed field is zero. -/
theorem fromQuery_failure_iff_witness :
    unparsableWindRecord.windSpeed = 0 :=
  ((fromQuery_failure_iff [("dateutc", "now"), ("windspeedmph", "abc")]
      ⟨2025, 1, 1, 0, 0, 0⟩).2 unparsableWindRecord
    (by with_unfolding_all rfl)).2.2.1 rfl

/-- C4: the four unit-conversion functions equal their reference formulas
for every input, and the spec's concrete test vectors hold exactly. -/
theorem conversions_match_reference :
    (∀ f : ℚ, ftoc f = (f - 32) / 1.8) ∧
    (∀ i : ℚ, inToMM i = i * 25.4) ∧
    (∀ m : ℚ, mphToKPH m = m * 1.609344) ∧
    (∀ p : ℚ, inHgToHPA p = p * 33.8639) ∧
    ftoc 32 = 0 ∧ ftoc 212 = 100 ∧ inToMM 10 = 254 ∧
    mphToKPH 60 = 96.56064 := by
  refine ⟨fun f => rfl, fun i => rfl, fun m => rfl, fun p => rfl, ?_, ?_, ?_, ?_⟩ <;>
    norm_num [ftoc, inToMM, mphToKPH]

/-- Helper: every successfully decoded record's cumulative-rain field is
the converted `dailyrainin` value of its query. -/
lemma fromQuery_rainToday (q : List (String × String)) (now : GoTime)
    (dm : DeviceMeasurement) (h : fromQuery q now = Except.ok dm) :
    dm.rainToday = stofField q "dailyrainin" inToMM := by
  cases hd : parseDateField q now with
  | error e => simp [fromQuery, hd] at h
  | ok t =>
    simp only [fromQuery, hd, Except.ok.injEq] at h
    subst h
    rfl

/-- The rain-scenario submissions of C5: identical valid queries with
`dailyrainin=0.0` and then `dailyrainin=1.0`. -/
def rainQuery0 : List (String × String) :=
  [("action", "updateraww"), ("ID", "test"), ("PASSWORD", "testtest"),
   ("dailyrainin", "0.0")]

/-- Second rain-scenario submission. -/
def rainQuery1 : List (String × String) :=
  [("action", "updateraww"), ("ID", "test"), ("PASSWORD", "testtest"),
   ("dailyrainin", "1.0")]

/-- C5: for every decoded submission the sink stores humidity and indoor
humidity divided by 100, stores barometric pressure, dew point,
temperature, indoor temperature, wind direction, wind speed, wind gust
and past-hour rain directly, and leaves the cumulative rain counter equal
to exactly that submission's decoded rain-since-reference value
(reset-then-add); in particular, two submissions with `dailyrainin=0.0`
then `dailyrainin=1.0` leave the counter at 25.4 mm. -/
theorem handleWUSubmission_sets_series :
    (∀ (m : MetricsState) (id : String) (dm : DeviceMeasurement),
      (handleWUSubmission m id dm).humidity id = some (dm.humidity / 100) ∧
      (handleWUSubmission m id dm).indoorHumidity id =
        some (dm.indoorHumidity / 100) ∧
      (handleWUSubmission m id dm).barometricPressure id = some dm.barometric ∧
      (handleWUSubmission m id dm).dewPoint id = some dm.dewPoint ∧
      (handleWUSubmission m id dm).temperature id = some dm.temperature ∧
      (handleWUSubmission m id dm).indoorTemperature id = some dm.indoorTemp ∧
      (handleWUSubmission m id dm).windDirection id = some dm.windDirection ∧
      (handleWUSubmission m id dm).windSpeed id = some dm.windSpeed ∧
      (handleWUSubmission m id dm).windGustSpeed id = some dm.windGust ∧
      (handleWUSubmission m id dm).rainPastHour id = some dm.rainPastHour ∧
      (handleWUSubmission m id dm).rain id = some dm.rainToday) ∧
    (∀ (m : MetricsState) (now : GoTime) (dm0 dm1 : DeviceMeasurement),
      fromQuery rainQuery0 now = Except.ok dm0 →
      fromQuery rainQuery1 now = Except.ok dm1 →
      (handleWUSubmission (handleWUSubmission m "test" dm0) "test" dm1).rain
        "test" = some 25.4) := by
  constructor
  · intro m id dm
    refine ⟨?_, ?_, ?_, ?_, ?_, ?_, ?_, ?_, ?_, ?_, ?_⟩ <;>
      simp [handleWUSubmission, gaugeSet, counterAdd, seriesDelete]
  · intro m now dm0 dm1 h0 h1
    have hr1 : dm1.rainToday = stofField rainQuery1 "dailyrainin" inToMM :=
      fromQuery_rainToday _ _ _ h1
    have hv : stofField rainQuery1 "dailyrainin" inToMM = 25.4 := by
      with_unfolding_all rfl
    simp [handleWUSubmission, counterAdd, seriesDelete, hr1, hv]

/-- The all-absent metrics state. -/
def emptyMetrics : MetricsState :=
  ⟨fun _ => Option.none, fun _ => Option.none, fun _ => Option.none,
   fun _ => Option.none, fun _ => Option.none, fun _ => Option.none,
   fun _ => Option.none, fun _ => Option.none, fun _ => Option.none,
   fun _ => Option.none, fun _ => Option.none⟩

/-- The record `rainQuery0` decodes to. -/
def rainRecord0 : DeviceMeasurement :=
  { dateUTC := ⟨2025, 1, 1, 0, 0, 0⟩, realTime := false, realTimeFreq := 0,
    windDirection := 0, windSpeed := 0, windGust := 0, humidity := 0,
    dewPoint := 0, temperature := 0, rainPastHour := 0, rainToday := 0,
    barometric := 0, indoorTemp := 0, indoorHumidity := 0 }

/-- The record `rainQuery1` decodes to: 1.0 in = 25.4 mm of rain. -/
def rainRecord1 : DeviceMeasurement :=
  { dateUTC := ⟨2025, 1, 1, 0, 0, 0⟩, realTime := false, realTimeFreq := 0,
    windDirection := 0, windSpeed := 0, windGust := 0, humidity := 0,
    dewPoint := 0, temperature := 0, rainPastHour := 0, rainToday := 25.4,
    barometric := 0, indoorTemp := 0, indoorHumidity := 0 }

set_option maxRecDepth 8192 in
/-- Witness for C5: running the two rain submissions against the empty
metrics state leaves the counter at 25.4 mm. -/
theorem handleWUSubmission_sets_series_witness :
    (handleWUSubmission (handleWUSubmission emptyMetrics "test" rainRecord0)
      "test" rainRecord1).rain "test" = some 25.4 :=
  handleWUSubmission_sets_series.2 emptyMetrics ⟨2025, 1, 1, 0, 0, 0⟩
    rainRecord0 rainRecord1 (by with_unfolding_all rfl)
    (by with_unfolding_all rfl)

/-- C9 (code bug): in `ListenAndServe` the decision to start the
TLS-terminated listener is taken from the plaintext listen address, not
the TLS listen address: with an empty plaintext address and a configured
TLS address the TLS listener is never started (although its certificate
was generated), with a configured plaintext address and an empty TLS
address a TLS listener is started without any certificate, and in
general the guard equals non-emptiness of the plaintext address. -/
theorem listenAndServePlan_tls_guard_divergence :
    ((listenAndServePlan ⟨"192.168.1.2", "8.8.8.8:53", "", "", ":443"⟩).tlsStarted
        = false ∧
      (listenAndServePlan
        ⟨"192.168.1.2", "8.8.8.8:53", "", "", ":443"⟩).certGenerated = true) ∧
    ((listenAndServePlan ⟨"192.168.1.2", "8.8.8.8:53", "", ":80", ""⟩).tlsStarted
        = true ∧
      (listenAndServePlan
        ⟨"192.168.1.2", "8.8.8.8:53", "", ":80", ""⟩).certGenerated = false) ∧
    (∀ e : ExporterConfig,
      (listenAndServePlan e).tlsStarted = (e.wuListenAddress ≠ "" : Bool)) := by
  exact ⟨⟨by decide, by decide⟩, ⟨by decide, by decide⟩, fun e => rfl⟩

/-- C10: the running flag is a compare-and-set guard on the start
routine: a call while running returns the "already running" error with
the flag unchanged and no listener plan, a call while not running flips
the flag, starts the listeners of the plan, and clears the flag when the
routine exits. -/
theorem listenAndServe_running_guard (e : ExporterConfig) :
    (listenAndServe e true).result = Except.error "already running" ∧
    (listenAndServe e true).runningDuring = true ∧
    (listenAndServe e true).runningAfter = true ∧
    (listenAndServe e false).result = Except.ok (listenAndServePlan e) ∧
    (listenAndServe e false).runningDuring = true ∧
    (listenAndServe e false).runningAfter = false :=
  ⟨rfl, rfl, rfl, rfl, rfl, rfl⟩

end PWS
